import Mathlib

/-!
Verification of the CMCC truth-model evaluation graph generated by
`cmcc_truth_model_builder.py`.

The builder writes an Excel workbook whose formulas encode a small
deterministic evaluation pipeline: a unit registry (`D_Units`), a constant
table (`D_Constants`), derived calculations (`F_Calculations`), scenario
instances (`D_Instances`), tolerance-checked claims (`D_Claims`) and boolean
questions (`D_Questions`).  We embed that pipeline shallowly: every worksheet
row becomes a Lean record, every generated formula becomes a Lean function.
Excel numbers are modelled as exact rationals (`ℚ`); a cell that holds the
empty string (a blank reference, or the intentionally blank calculation
result) is modelled as `none : Option ℚ`, and arithmetic on such a cell
(which Excel turns into a `#VALUE!` error) propagates `none`.
-/

namespace CMCC

/-- The `QuantityKind` column of `D_Units`. -/
inductive QuantityKind where
  | Energy | Temperature | Mass | Speed | Charge
  deriving DecidableEq, Repr

/-- Unit identifiers: the `UnitID` column of the `D_Units` sheet (rows 2-9). -/
inductive UnitID where
  | U_J | U_eV | U_ftlbf | U_K | U_C | U_kg | U_mps | U_Coul
  deriving DecidableEq, Repr

/-- One row of `D_Units`: quantity kind, `ToSI_Mult` and `ToSI_Offset`. -/
structure UnitRec where
  kind : QuantityKind
  toSI_Mult : ℚ
  toSI_Offset : ℚ
  deriving DecidableEq, Repr

/-- The `units_data` table of the builder.  Decimal literals are transcribed
exactly: `1.602176634e-19 = 1602176634/10^28`, `1.3558179483314 =
13558179483314/10^13`, `273.15 = 27315/100`. -/
def unitRec : UnitID → UnitRec
  | .U_J     => ⟨.Energy, 1, 0⟩
  | .U_eV    => ⟨.Energy, 1602176634 / 10 ^ 28, 0⟩
  | .U_ftlbf => ⟨.Energy, 13558179483314 / 10 ^ 13, 0⟩
  | .U_K     => ⟨.Temperature, 1, 0⟩
  | .U_C     => ⟨.Temperature, 1, 27315 / 100⟩
  | .U_kg    => ⟨.Mass, 1, 0⟩
  | .U_mps   => ⟨.Speed, 1, 0⟩
  | .U_Coul  => ⟨.Charge, 1, 0⟩

/-- The unit registry conversion.  Both generated conversion formulas
(`=D{r}*H{r}+I{r}` on `D_Constants` and `=E{r}*G{r}+H{r}` on `D_Instances`)
multiply the raw value by the looked-up `ToSI_Mult` and add `ToSI_Offset`. -/
def convert (u : UnitID) (x : ℚ) : ℚ :=
  x * (unitRec u).toSI_Mult + (unitRec u).toSI_Offset

/-- Constant identifiers: the `ConstantID` column of `D_Constants` (rows 2-6). -/
inductive ConstantID where
  | C_me | C_c | C_e | C_mec2 | C_abs0
  deriving DecidableEq, Repr

/-- One row of `D_Constants`: the input `Value` and its `UnitID`. -/
structure ConstantRec where
  value : ℚ
  unitId : UnitID
  deriving DecidableEq, Repr

/-- The `constants_rows` table of the builder.  `9.1093837139e-31 =
91093837139/10^41`, `8.1871057880e-14 = 81871057880/10^24`. -/
def constantRec : ConstantID → ConstantRec
  | .C_me   => ⟨91093837139 / 10 ^ 41, .U_kg⟩
  | .C_c    => ⟨299792458, .U_mps⟩
  | .C_e    => ⟨1602176634 / 10 ^ 28, .U_Coul⟩
  | .C_mec2 => ⟨81871057880 / 10 ^ 24, .U_J⟩
  | .C_abs0 => ⟨0, .U_K⟩

/-- The `Value_SI` column (col 10) of `D_Constants`: `=D{r}*H{r}+I{r}` where
`H`/`I` are the VLOOKUPed `ToSI_Mult`/`ToSI_Offset` of the row's unit. -/
def value_SI (c : ConstantID) : ℚ :=
  convert (constantRec c).unitId (constantRec c).value

/-- Calculation identifiers: the `CalcID` column of `F_Calculations`. -/
inductive CalcID where
  | F_Ecalc | F_eV_to_J | F_T_C_from_K
  deriving DecidableEq, Repr

/-- The `Result_SI` column (col 5, cells `E2:E4`) of `F_Calculations`:
`E2 = VLOOKUP C_me.Value_SI * (VLOOKUP C_c.Value_SI)^2`,
`E3 = VLOOKUP C_e.Value_SI`, and `E4` is intentionally left blank
(`none`): the builder writes no formula into it. -/
def result_SI : CalcID → Option ℚ
  | .F_Ecalc     => some (value_SI .C_me * (value_SI .C_c) ^ 2)
  | .F_eV_to_J   => some (value_SI .C_e)
  | .F_T_C_from_K => none

/-- Instance identifiers: the `InstanceID` column of `D_Instances` (rows 2-7). -/
inductive InstanceID where
  | I_Ecalc_J | I_Ecalc_eV | I_Ecalc_ftlbf | I_Eexpected_J | I_Tabs0_K | I_Tabs0_C
  deriving DecidableEq, Repr

/-- The `UnitID` column (col 6) of `D_Instances`. -/
def instanceUnit : InstanceID → UnitID
  | .I_Ecalc_J     => .U_J
  | .I_Ecalc_eV    => .U_eV
  | .I_Ecalc_ftlbf => .U_ftlbf
  | .I_Eexpected_J => .U_J
  | .I_Tabs0_K     => .U_K
  | .I_Tabs0_C     => .U_C

/-- The `Value` column (col 5, cells `E2:E7`) of `D_Instances`.
`kelvinRaw` is the literal input of the Kelvin instance (cell `E6`, holding
`0.0` in the shipped workbook; it is a yellow editable input cell).
`E2 = F_Ecalc`, `E3 = F_Ecalc / F_eV_to_J`,
`E4 = F_Ecalc / VLOOKUP("U_ftlbf").ToSI_Mult`, `E5 = C_mec2.Value_SI`,
`E7 = E6 - 273.15`.  A reference to the blank calculation result would
propagate as `none`. -/
def instValue (kelvinRaw : ℚ) : InstanceID → Option ℚ
  | .I_Ecalc_J     => result_SI .F_Ecalc
  | .I_Ecalc_eV    =>
      match result_SI .F_Ecalc, result_SI .F_eV_to_J with
      | some a, some b => some (a / b)
      | _, _ => none
  | .I_Ecalc_ftlbf => (result_SI .F_Ecalc).map (· / (unitRec .U_ftlbf).toSI_Mult)
  | .I_Eexpected_J => some (value_SI .C_mec2)
  | .I_Tabs0_K     => some kelvinRaw
  | .I_Tabs0_C     => some (kelvinRaw - 27315 / 100)

/-- The `Canonical_SI` column (col 9) of `D_Instances`: `=E{r}*G{r}+H{r}`
with `G`/`H` the VLOOKUPed conversion factors of the row's unit. -/
def canonical_SI (kelvinRaw : ℚ) (i : InstanceID) : Option ℚ :=
  (instValue kelvinRaw i).map (convert (instanceUnit i))

/-- Which calculations each instance's `Value` formula references (read off
the `E2:E7` formulas above). -/
def instanceCalcRefs : InstanceID → List CalcID
  | .I_Ecalc_J     => [.F_Ecalc]
  | .I_Ecalc_eV    => [.F_Ecalc, .F_eV_to_J]
  | .I_Ecalc_ftlbf => [.F_Ecalc]
  | .I_Eexpected_J => []
  | .I_Tabs0_K     => []
  | .I_Tabs0_C     => []

/-- The calculation whose resolved SI value sources the instance's raw
value (the "derived" source form): `E2`, `E3` and `E4` all take `F_Ecalc`'s
result and re-express it in the instance's own unit. -/
def derivedFrom : InstanceID → Option CalcID
  | .I_Ecalc_J     => some .F_Ecalc
  | .I_Ecalc_eV    => some .F_Ecalc
  | .I_Ecalc_ftlbf => some .F_Ecalc
  | .I_Eexpected_J => none
  | .I_Tabs0_K     => none
  | .I_Tabs0_C     => none

/-- Claim identifiers: the `ClaimID` column of `D_Claims` (rows 2-5). -/
inductive ClaimID where
  | CL1 | CL2 | CL3 | CL4
  deriving DecidableEq, Repr

/-- The `ToleranceAbs_SI` column (col 8) of `D_Claims`. -/
def tolerance : ClaimID → ℚ
  | .CL1 => 1 / 10 ^ 25
  | .CL2 => 1 / 10 ^ 22
  | .CL3 => 1 / 10 ^ 9
  | .CL4 => 0

/-- The `SI_1` cell (col 9) of each claim row:
`=IF(E{r}="","",VLOOKUP(E{r},inst,9,FALSE))` for rows 2-4 (a blank
reference yields the empty string, modelled `none`), and the CL4 row is
patched to `=VLOOKUP("F_eV_to_J",calcs,5,FALSE)`. -/
def claimSI1 (kelvinRaw : ℚ) : ClaimID → Option ℚ
  | .CL1 => canonical_SI kelvinRaw .I_Ecalc_J
  | .CL2 => canonical_SI kelvinRaw .I_Ecalc_J
  | .CL3 => canonical_SI kelvinRaw .I_Tabs0_K
  | .CL4 => result_SI .F_eV_to_J

/-- The `SI_2` cell (col 10) of each claim row; the CL4 row is patched to
`=VLOOKUP("C_e",consts,10,FALSE)`. -/
def claimSI2 (kelvinRaw : ℚ) : ClaimID → Option ℚ
  | .CL1 => canonical_SI kelvinRaw .I_Ecalc_eV
  | .CL2 => canonical_SI kelvinRaw .I_Eexpected_J
  | .CL3 => canonical_SI kelvinRaw .I_Tabs0_C
  | .CL4 => some (value_SI .C_e)

/-- The `SI_3` cell (col 11) of each claim row: only CL1 references a third
instance; CL2/CL3 have an empty third reference and the CL4 row's cell is
explicitly set to the empty string. -/
def claimSI3 (kelvinRaw : ℚ) : ClaimID → Option ℚ
  | .CL1 => canonical_SI kelvinRaw .I_Ecalc_ftlbf
  | _    => none

/-- Excel `ABS(I-J)` where `I`, `J` hold a number or the empty string:
subtraction with a text operand is a `#VALUE!` error, modelled `none`. -/
def absDiff (i j : Option ℚ) : Option ℚ :=
  match i, j with
  | some a, some b => some |a - b|
  | _, _ => none

/-- The generated `RangeAbs` formula (col 12):
`=IF(K{r}="",ABS(I{r}-J{r}),MAX(I{r},J{r},K{r})-MIN(I{r},J{r},K{r}))`.
Excel's `MAX`/`MIN` ignore text arguments, so in the three-argument branch
they range over the numeric values among `I`, `J`, `K` (and `K` is numeric
there, so the set is nonempty). -/
def rangeAbs (i j k : Option ℚ) : Option ℚ :=
  match k with
  | none => absDiff i j
  | some c =>
      some (([i, j].filterMap id).foldl max c - ([i, j].filterMap id).foldl min c)

/-- The `RangeAbs` cell of each claim row.  Rows 2-4 carry the generated
`rangeAbs` formula; the CL4 row is patched to `=ABS(I5-J5)`. -/
def claimRange (kelvinRaw : ℚ) : ClaimID → Option ℚ
  | .CL4 => absDiff (claimSI1 kelvinRaw .CL4) (claimSI2 kelvinRaw .CL4)
  | c    => rangeAbs (claimSI1 kelvinRaw c) (claimSI2 kelvinRaw c) (claimSI3 kelvinRaw c)

/-- The `Pass` cell (col 13): `=L{r}<=H{r}`.  Comparison with an error cell
propagates the error. -/
def claimPass (kelvinRaw : ℚ) (c : ClaimID) : Option Bool :=
  (claimRange kelvinRaw c).map (fun l => decide (l ≤ tolerance c))

/-- Which calculations each claim row's cells reference directly (only the
patched CL4 row looks up a calculation result). -/
def claimCalcRefs : ClaimID → List CalcID
  | .CL4 => [.F_eV_to_J]
  | _    => []

/-- The referenced SI values of a claim that are actually present
(numeric), in slot order. -/
def presentSIs (kelvinRaw : ℚ) (c : ClaimID) : List ℚ :=
  [claimSI1 kelvinRaw c, claimSI2 kelvinRaw c, claimSI3 kelvinRaw c].filterMap id

/-- Modelled from the spec: the spec's description of `computed_range` —
`max(values) - min(values)` when three referenced SI values are present,
and `|value1 - value2|` when exactly two are present. -/
def specComputedRange : List ℚ → Option ℚ
  | [a, b, c] => some (max a (max b c) - min a (min b c))
  | [a, b]    => some |a - b|
  | _         => none

/-- Question identifiers: the `QID` column of `D_Questions` (rows 2-7). -/
inductive QID where
  | Q0 | Q1 | Q2 | Q3 | Q4 | Q5
  deriving DecidableEq, Repr

/-- The `InstanceID` rows of `D_Instances`, in sheet order (rows 2-7). -/
def allInstances : List InstanceID :=
  [.I_Ecalc_J, .I_Ecalc_eV, .I_Ecalc_ftlbf, .I_Eexpected_J, .I_Tabs0_K, .I_Tabs0_C]

/-- The `ClaimID` rows of `D_Claims`, in sheet order (rows 2-5). -/
def allClaims : List ClaimID := [.CL1, .CL2, .CL3, .CL4]

/-- Excel `NOT` over a cell that may hold an error. -/
def oNot (a : Option Bool) : Option Bool := a.map (fun x => !x)

/-- Excel `OR` of three cells that may hold errors. -/
def oOr3 (a b c : Option Bool) : Option Bool :=
  match a, b, c with
  | some x, some y, some z => some (x || y || z)
  | _, _, _ => none

/-- The `Answer` column (col `D`, cells `D2:D7`) of `D_Questions`:
`D2 = CL4.Pass`, `D3 = OR(CL1.Pass, CL2.Pass, CL3.Pass)`,
`D4 = NOT(CL1.Pass)`, `D5 = CL2.Pass`, `D6 = CL3.Pass`,
`D7 = OR(CL1.Pass, CL2.Pass, CL3.Pass)`. -/
def answer (kelvinRaw : ℚ) : QID → Option Bool
  | .Q0 => claimPass kelvinRaw .CL4
  | .Q1 => oOr3 (claimPass kelvinRaw .CL1) (claimPass kelvinRaw .CL2) (claimPass kelvinRaw .CL3)
  | .Q2 => oNot (claimPass kelvinRaw .CL1)
  | .Q3 => claimPass kelvinRaw .CL2
  | .Q4 => claimPass kelvinRaw .CL3
  | .Q5 => oOr3 (claimPass kelvinRaw .CL1) (claimPass kelvinRaw .CL2) (claimPass kelvinRaw .CL3)

/-! ## Shared helper lemmas -/

/-- The joule instance's canonical SI value is exactly the `F_Ecalc` result
(`E2 = F_Ecalc`, and the joule conversion is the identity). -/
lemma canonical_Ecalc_J (x : ℚ) : canonical_SI x .I_Ecalc_J = result_SI .F_Ecalc := by
  norm_num [canonical_SI, instValue, result_SI, instanceUnit, convert, unitRec, value_SI,
    constantRec]

/-- The electronvolt instance's canonical SI value is exactly the `F_Ecalc`
result: `E3` divides by `F_eV_to_J = 1.602176634e-19` and the `U_eV`
conversion multiplies by the same (nonzero) factor. -/
lemma canonical_Ecalc_eV (x : ℚ) : canonical_SI x .I_Ecalc_eV = result_SI .F_Ecalc := by
  norm_num [canonical_SI, instValue, result_SI, instanceUnit, convert, unitRec, value_SI,
    constantRec]

/-- The foot-pound-force instance's canonical SI value is exactly the
`F_Ecalc` result: `E4` divides by the `U_ftlbf` multiplier and the
conversion multiplies it back. -/
lemma canonical_Ecalc_ftlbf (x : ℚ) : canonical_SI x .I_Ecalc_ftlbf = result_SI .F_Ecalc := by
  norm_num [canonical_SI, instValue, result_SI, instanceUnit, convert, unitRec, value_SI,
    constantRec]

/-- The Kelvin instance's canonical SI value is its literal input
(`U_K` conversion is the identity). -/
lemma canonical_Tabs0_K (x : ℚ) : canonical_SI x .I_Tabs0_K = some x := by
  simp [canonical_SI, instValue, instanceUnit, convert, unitRec]

/-- The Celsius instance's canonical SI value equals the Kelvin literal:
`E7 = E6 - 273.15` and the `U_C` conversion adds `273.15` back. -/
lemma canonical_Tabs0_C (x : ℚ) : canonical_SI x .I_Tabs0_C = some x := by
  simp [canonical_SI, instValue, instanceUnit, convert, unitRec]

/-- CL1's range cell evaluates to exactly `0`: all three energy instances
canonicalize to the same `F_Ecalc` value. -/
lemma cl1_range_zero (x : ℚ) : claimRange x .CL1 = some 0 := by
  simp [claimRange, claimSI1, claimSI2, claimSI3, canonical_Ecalc_J, canonical_Ecalc_eV,
    canonical_Ecalc_ftlbf, rangeAbs, absDiff, result_SI]

/-- CL3's range cell evaluates to exactly `0` for any Kelvin literal. -/
lemma cl3_range_zero (x : ℚ) : claimRange x .CL3 = some 0 := by
  simp [claimRange, claimSI1, claimSI2, claimSI3, canonical_Tabs0_K, canonical_Tabs0_C,
    rangeAbs, absDiff]

/-- CL4's range cell evaluates to exactly `0`: both compared cells hold the
SI value of the constant `C_e`. -/
lemma cl4_range_zero (x : ℚ) : claimRange x .CL4 = some 0 := by
  simp [claimRange, claimSI1, claimSI2, absDiff, result_SI]

/-! ## Claim theorems -/

/-- C1: for every claim row of `D_Claims`, the `RangeAbs` cell agrees with
the spec's description of `computed_range` (`max - min` of the three
present SI values for CL1, `|value1 - value2|` for the two-value claims
CL2, CL3, CL4), and the `Pass` cell is `TRUE` exactly when that range is
`<=` the row's tolerance (inclusive). -/
theorem claim_pass_iff_range_le_tolerance :
    ∀ c : ClaimID,
      claimRange 0 c = specComputedRange (presentSIs 0 c) ∧
      ∀ r : ℚ, claimRange 0 c = some r →
        (claimPass 0 c = some true ↔ r ≤ tolerance c) := by
  intro c
  constructor
  · cases c
    case CL1 =>
      simp [presentSIs, claimSI1, claimSI2, claimSI3, claimRange, rangeAbs, absDiff,
        specComputedRange, canonical_Ecalc_J, canonical_Ecalc_eV, canonical_Ecalc_ftlbf,
        result_SI]
    all_goals
      simp [presentSIs, claimSI1, claimSI2, claimSI3, claimRange, rangeAbs, absDiff,
        specComputedRange, canonical_Tabs0_K, canonical_Tabs0_C, canonical_SI, instValue,
        result_SI]
  · intro r h
    simp [claimPass, h]

/-- C1 witness: instantiated at CL4 with its computed range `0`. -/
theorem claim_pass_iff_range_le_tolerance_witness :
    claimRange 0 ClaimID.CL4 = specComputedRange (presentSIs 0 ClaimID.CL4) ∧
    (claimPass 0 ClaimID.CL4 = some true ↔ (0 : ℚ) ≤ tolerance ClaimID.CL4) :=
  ⟨(claim_pass_iff_range_le_tolerance ClaimID.CL4).1,
   (claim_pass_iff_range_le_tolerance ClaimID.CL4).2 0 (cl4_range_zero 0)⟩

/-- C2: the intentionally unspecified calculation `F_T_C_from_K` (its
`Result_SI` cell `E4` is left blank) resolves to `none`, and no instance
`Value` formula and no claim cell in the workbook references it, so every
downstream consumer of it (there are none) trivially satisfies the
undefined-propagation property, and its blank result is never fed into any
arithmetic as zero. -/
theorem blank_calculation_undefined_and_unconsumed :
    result_SI CalcID.F_T_C_from_K = none ∧
    (allInstances.all fun i => !(instanceCalcRefs i).contains CalcID.F_T_C_from_K) = true ∧
    (allClaims.all fun c => !(claimCalcRefs c).contains CalcID.F_T_C_from_K) = true :=
  ⟨rfl, rfl, rfl⟩

/-- C3: the unit registry conversion is affine (`raw * multiplier +
offset`) for every registered unit, the schema's energy units (`U_J`,
`U_eV`, `U_ftlbf`) all have offset `0`, and the degree-Celsius unit is a
temperature unit with the strictly positive offset `273.15`. -/
theorem convert_affine_and_schema_offsets :
    (∀ (u : UnitID) (x : ℚ),
        convert u x = x * (unitRec u).toSI_Mult + (unitRec u).toSI_Offset) ∧
    ((unitRec UnitID.U_J).kind = QuantityKind.Energy ∧ (unitRec UnitID.U_J).toSI_Offset = 0) ∧
    ((unitRec UnitID.U_eV).kind = QuantityKind.Energy ∧ (unitRec UnitID.U_eV).toSI_Offset = 0) ∧
    ((unitRec UnitID.U_ftlbf).kind = QuantityKind.Energy ∧
      (unitRec UnitID.U_ftlbf).toSI_Offset = 0) ∧
    (unitRec UnitID.U_C).kind = QuantityKind.Temperature ∧
    (unitRec UnitID.U_C).toSI_Offset = 27315 / 100 ∧
    0 < (unitRec UnitID.U_C).toSI_Offset := by
  refine ⟨fun u x => rfl, ⟨rfl, rfl⟩, ⟨rfl, rfl⟩, ⟨rfl, rfl⟩, rfl, rfl, ?_⟩
  norm_num [unitRec]

/-- C4: the definitional claim CL4 compares the calculation `F_eV_to_J`
(which resolves to the SI value of the constant `C_e`) against `C_e`
itself; the two compared cells hold the identical value, the computed
range is exactly `0`, the tolerance is `0`, and the claim passes. -/
theorem cl4_definitional_exact_zero :
    claimSI1 0 ClaimID.CL4 = claimSI2 0 ClaimID.CL4 ∧
    claimRange 0 ClaimID.CL4 = some 0 ∧
    tolerance ClaimID.CL4 = 0 ∧
    claimPass 0 ClaimID.CL4 = some true := by
  refine ⟨rfl, cl4_range_zero 0, rfl, ?_⟩
  norm_num [claimPass, cl4_range_zero, tolerance]

/-- C5: every derived instance (one whose `Value` formula sources a
calculation's resolved SI value and re-expresses it in the instance's own
unit) has a canonical SI value exactly equal to the calculation's SI
value: the round trip through the non-SI unit is lossless (here: exact in
rational arithmetic, hence within any floating-point tolerance). -/
theorem derived_instance_roundtrip_exact (i : InstanceID) (c : CalcID)
    (h : derivedFrom i = some c) : canonical_SI 0 i = result_SI c := by
  cases i <;> cases c <;> first
    | exact canonical_Ecalc_J 0
    | exact canonical_Ecalc_eV 0
    | exact canonical_Ecalc_ftlbf 0
    | simp_all [derivedFrom]

/-- C5 witness: instantiated at the electronvolt instance, which is derived
from `F_Ecalc`. -/
theorem derived_instance_roundtrip_exact_witness :
    derivedFrom InstanceID.I_Ecalc_eV = some CalcID.F_Ecalc ∧
    canonical_SI 0 InstanceID.I_Ecalc_eV = result_SI CalcID.F_Ecalc :=
  ⟨rfl, derived_instance_roundtrip_exact InstanceID.I_Ecalc_eV CalcID.F_Ecalc rfl⟩

/-- C6: each question's answer cell is the documented fixed boolean formula
over the referenced claims' pass cells — `Q2 = NOT(CL1)`, `Q1 = Q5 =
OR(CL1, CL2, CL3)`, and `Q0`, `Q3`, `Q4` are the identity of CL4, CL2,
CL3 respectively — for any value of the editable Kelvin literal. -/
theorem question_answer_formulas (k : ℚ) :
    answer k QID.Q2 = oNot (claimPass k ClaimID.CL1) ∧
    answer k QID.Q1 =
      oOr3 (claimPass k ClaimID.CL1) (claimPass k ClaimID.CL2) (claimPass k ClaimID.CL3) ∧
    answer k QID.Q5 =
      oOr3 (claimPass k ClaimID.CL1) (claimPass k ClaimID.CL2) (claimPass k ClaimID.CL3) ∧
    answer k QID.Q0 = claimPass k ClaimID.CL4 ∧
    answer k QID.Q3 = claimPass k ClaimID.CL2 ∧
    answer k QID.Q4 = claimPass k ClaimID.CL3 :=
  ⟨rfl, rfl, rfl, rfl, rfl, rfl⟩

/-- C7 counterexample: in a claim-row configuration with exactly one
present value (first slot numeric, the other two blank), the generated
`RangeAbs` formula produces an Excel error (`none`), which is not the
value `0`, and the pass cell produces an error rather than `TRUE`. -/
theorem one_value_claim_row_errs :
    rangeAbs (some 1) none none = none ∧
    (rangeAbs (some 1) none none == some 0) = false ∧
    ((rangeAbs (some 1) none none).map fun l => decide (l ≤ (0 : ℚ))) = none :=
  ⟨rfl, rfl, rfl⟩

/-- C7 amended: no claim row of the workbook has exactly one present value
(each has at least two), and in a hypothetical one-value configuration
(only the first slot numeric) the generated range formula yields an Excel
error (`none`) — not `0` — and the pass cell yields an error, not `TRUE`,
for any tolerance. -/
theorem no_one_value_claims_and_row_error (v t : ℚ) :
    (∀ c : ClaimID, 2 ≤ (presentSIs 0 c).length) ∧
    rangeAbs (some v) none none = none ∧
    ((rangeAbs (some v) none none).map fun l => decide (l ≤ t)) = none := by
  refine ⟨?_, rfl, rfl⟩
  intro c
  cases c <;>
    simp [presentSIs, claimSI1, claimSI2, claimSI3, canonical_Ecalc_J, canonical_Ecalc_eV,
      canonical_Ecalc_ftlbf, canonical_Tabs0_K, canonical_Tabs0_C, canonical_SI, instValue,
      result_SI]

/-- C8: the three energy instances derived from `E = m_e * c^2` — expressed
in joules, electronvolts and foot-pound force and converted back to SI —
all canonicalize to exactly the `F_Ecalc` value, so CL1's computed range
is `0`, which is at most the tolerance `1e-25`, and CL1 passes. -/
theorem energy_invariance_cl1_passes :
    canonical_SI 0 InstanceID.I_Ecalc_J = result_SI CalcID.F_Ecalc ∧
    canonical_SI 0 InstanceID.I_Ecalc_eV = result_SI CalcID.F_Ecalc ∧
    canonical_SI 0 InstanceID.I_Ecalc_ftlbf = result_SI CalcID.F_Ecalc ∧
    claimRange 0 ClaimID.CL1 = some 0 ∧
    (0 : ℚ) ≤ 1 / 10 ^ 25 ∧
    tolerance ClaimID.CL1 = 1 / 10 ^ 25 ∧
    claimPass 0 ClaimID.CL1 = some true := by
  refine ⟨canonical_Ecalc_J 0, canonical_Ecalc_eV 0, canonical_Ecalc_ftlbf 0,
    cl1_range_zero 0, by norm_num, rfl, ?_⟩
  norm_num [claimPass, cl1_range_zero, tolerance]

/-- C9: the Kelvin instance (literal `0`) and the Celsius instance
(`0 - 273.15` degrees Celsius) both canonicalize to the SI value `0`,
their difference `0` is at most `1e-9`, and CL3 passes. -/
theorem scale_anchor_cl3_passes :
    canonical_SI 0 InstanceID.I_Tabs0_K = some 0 ∧
    canonical_SI 0 InstanceID.I_Tabs0_C = some 0 ∧
    claimRange 0 ClaimID.CL3 = some 0 ∧
    (0 : ℚ) ≤ 1 / 10 ^ 9 ∧
    tolerance ClaimID.CL3 = 1 / 10 ^ 9 ∧
    claimPass 0 ClaimID.CL3 = some true := by
  refine ⟨canonical_Tabs0_K 0, canonical_Tabs0_C 0, cl3_range_zero 0, by norm_num, rfl, ?_⟩
  norm_num [claimPass, cl3_range_zero, tolerance]

end CMCC
